import Mathlib

/-!
Shallow embedding of the financialdashboard repository (src/app.py and
src/database.py) and verification of the frozen claims about it.

Modelling conventions:
- Python/pandas decimal amounts are modelled over the rationals.  The
  decimal literals of the source (0.40, 0.20) are exact rationals here.
- A pandas DataFrame of transactions is modelled as a list of typed rows,
  matching the column set the application reads and writes.
- numpy division of a value by a zero denominator does not raise in the
  source; it produces a non-number (nan or inf).  We model the result of
  such a division as an Option, with none standing for the non-number
  outcome and some q for the real-number outcome.
- numpy .round(2) is round-half-to-even at two decimals, modelled exactly.
-/

namespace FinDash

/-- Calendar date as parsed by pandas to_datetime; the application only
reads the year and month components (plus the full date for display). -/
structure TxDate where
  year : Int
  month : Nat
  day : Nat
deriving DecidableEq, Repr

/-- One row of the transactions table: columns Date, Type, Category,
Amount, Description (src/app.py sample data and data-entry form). -/
structure Transaction where
  date : TxDate
  txType : String
  category : String
  amount : ℚ
  description : String
deriving DecidableEq, Repr

/-! ## Aggregation functions (src/app.py) -/

/-- Sum of Amount over rows of the given Type within year y, month m
(the groupby by month period in show_overview / show_income_expenses). -/
def sumByTypeInMonth (rows : List Transaction) (ty : String) (y : Int) (m : Nat) : ℚ :=
  ((rows.filter (fun r => r.txType == ty && r.date.year == y && r.date.month == m)).map
    (fun r => r.amount)).sum

def monthlyIncome (rows : List Transaction) (y : Int) (m : Nat) : ℚ :=
  sumByTypeInMonth rows "Income" y m

def monthlyExpenses (rows : List Transaction) (y : Int) (m : Nat) : ℚ :=
  sumByTypeInMonth rows "Expense" y m

/-- numpy round-half-to-even of a rational to an integer. -/
def roundHalfEven (x : ℚ) : ℤ :=
  let f := ⌊x⌋
  let r := x - (f : ℚ)
  if r < 1/2 then f
  else if 1/2 < r then f + 1
  else if f % 2 = 0 then f else f + 1

/-- numpy .round(2): round-half-to-even at two decimal places. -/
def round2 (x : ℚ) : ℚ := (roundHalfEven (x * 100) : ℚ) / 100

/-- Profit margin of a month, from show_income_expenses:
np.where selects (Profit / Income * 100).round(2) when Income is strictly
positive and 0 otherwise, so a zero (or negative) income yields 0. -/
def profitMargin (income profit : ℚ) : ℚ :=
  if 0 < income then round2 (profit / income * 100) else 0

/-- The Profit_Margin value show_income_expenses computes for year y,
month m of a loaded transactions table. -/
def profitMarginOfMonth (rows : List Transaction) (y : Int) (m : Nat) : ℚ :=
  profitMargin (monthlyIncome rows y m)
    (monthlyIncome rows y m - monthlyExpenses rows y m)

/-- Division as performed by numpy on floats: a zero denominator does not
raise, it produces a non-number (nan or inf), modelled as none. -/
def npDiv (x y : ℚ) : Option ℚ := if y = 0 then none else some (x / y)

/-- Rows of Type Expense (show_expense_categories). -/
def expenseRows (rows : List Transaction) : List Transaction :=
  rows.filter (fun r => r.txType == "Expense")

/-- Stable insertion into a sorted list: a lands after every element it is
not strictly before.  Models the orderings the pandas calls apply. -/
def insertSorted (lt : α → α → Bool) (a : α) : List α → List α
  | [] => [a]
  | b :: bs => if lt a b then a :: b :: bs else b :: insertSorted lt a bs

/-- Stable insertion sort by the given strict order. -/
def sortBy (lt : α → α → Bool) : List α → List α
  | [] => []
  | a :: as => insertSorted lt a (sortBy lt as)

/-- Distinct categories of the expense rows, sorted ascending as pandas
groupby sorts its keys. -/
def expenseCategories (rows : List Transaction) : List String :=
  sortBy (fun a b => decide (a < b)) (((expenseRows rows).map (fun r => r.category)).dedup)

/-- Sum of Amount over the expense rows of one category. -/
def categoryTotal (rows : List Transaction) (c : String) : ℚ :=
  (((expenseRows rows).filter (fun r => r.category == c)).map (fun r => r.amount)).sum

/-- groupby Category, sum Amount, sort by summed amount descending
(category_summary in show_expense_categories). -/
def categorySummary (rows : List Transaction) : List (String × ℚ) :=
  sortBy (fun a b => decide (b.2 < a.2))
    ((expenseCategories rows).map (fun c => (c, categoryTotal rows c)))

/-- total_expenses in show_expense_categories: the sum of the grouped
category amounts. -/
def totalExpenses (rows : List Transaction) : ℚ :=
  ((categorySummary rows).map (fun p => p.2)).sum

/-- The Percentage column of the category breakdown table:
(amount / total_expenses * 100).round(2), with no guard for a zero
total, so a zero denominator yields a non-number, not 0. -/
def categoryPercentages (rows : List Transaction) : List (String × Option ℚ) :=
  (categorySummary rows).map
    (fun p => (p.1, (npDiv p.2 (totalExpenses rows)).map (fun q => round2 (q * 100))))

/-! ## Allocation split (show_income_allocations) -/

/-- Year-to-date income: sum of Amount over Income rows whose year is the
current year. -/
def ytdIncome (rows : List Transaction) (currentYear : Int) : ℚ :=
  ((rows.filter (fun r => r.txType == "Income" && r.date.year == currentYear)).map
    (fun r => r.amount)).sum

def tax_rate : ℚ := 0.40
def reinvestment_rate : ℚ := 0.20
def owner_pay_frequency : ℚ := 14
def owner_pay_amount : ℚ := 3000
def days_in_year : ℚ := 365

structure Allocation where
  taxes_set_aside : ℚ
  reinvestment : ℚ
  owner_pay_total : ℚ
  net_cushion : ℚ
deriving DecidableEq, Repr

/-- The allocation split computed by show_income_allocations from the
year-to-date income.  pay_periods is the plain float quotient 365 / 14
(no rounding of any kind in the source). -/
def allocations (ytd_income : ℚ) : Allocation :=
  let taxes_set_aside := ytd_income * tax_rate
  let reinvestment := ytd_income * reinvestment_rate
  let pay_periods := days_in_year / owner_pay_frequency
  let owner_pay_total := pay_periods * owner_pay_amount
  let net_cushion := ytd_income - taxes_set_aside - reinvestment - owner_pay_total
  { taxes_set_aside := taxes_set_aside
    reinvestment := reinvestment
    owner_pay_total := owner_pay_total
    net_cushion := net_cushion }

/-! ## Record store tables and CSV import (src/app.py, show_data_entry) -/

/-- A pandas DataFrame as read from or written to a CSV file: a list of
column names and rows of cells.  A cell holds none where the frame holds
a missing value (NaN). -/
structure Table where
  cols : List String
  rows : List (List (Option String))
deriving DecidableEq, Repr

def emptyTable : Table := { cols := [], rows := [] }

/-- Required column sets checked by the CSV import tab, one per
destination kind (show_data_entry, required_cols). -/
def requiredTransactionCols : List String :=
  ["Date", "Type", "Category", "Amount", "Description"]

def requiredClientCols : List String :=
  ["Client", "Project", "Amount", "Invoice_Sent", "Due_Date", "Status"]

def requiredRecurringCols : List String :=
  ["Vendor", "Frequency", "Amount", "Due_Month"]

/-- Value of column c in a row that was laid out under oldCols. -/
def cellAt (oldCols : List String) (row : List (Option String)) (c : String) : Option String :=
  match oldCols.findIdx? (fun x => x == c) with
  | some i => (row.get? i).join
  | none => none

/-- Re-lay a row out under a new column list, filling missing columns
with NaN, as pandas does when concatenating frames with differing
columns. -/
def reindexRow (oldCols : List String) (row : List (Option String))
    (newCols : List String) : List (Option String) :=
  newCols.map (fun c => cellAt oldCols row c)

/-- pd.concat of two frames with ignore_index: the column list is the
union (first frame order first, then the new columns of the second), and
rows absent a column get a missing value. -/
def pdConcat (a b : Table) : Table :=
  let cols := a.cols ++ b.cols.filter (fun c => !(a.cols.contains c))
  { cols := cols
    rows := a.rows.map (fun r => reindexRow a.cols r cols) ++
      b.rows.map (fun r => reindexRow b.cols r cols) }

/-- The CSV import tab: if every required column occurs in the uploaded
frame, concatenate it onto the loaded destination and write the result;
otherwise show the error message listing the required columns and write
nothing. -/
def importCSV (required : List String) (dest upload : Table) :
    Except (List String) Table :=
  if ∀ c ∈ required, c ∈ upload.cols then
    Except.ok (pdConcat dest upload)
  else
    Except.error required

/-- Contents of the destination file after the import attempt: the merged
table on success, the untouched previous table on rejection. -/
def destAfterImport (required : List String) (dest upload : Table) : Table :=
  match importCSV required dest upload with
  | Except.ok t => t
  | Except.error _ => dest

/-! ## Loading files (load_transactions, load_clients, load_recurring) -/

/-- The Python exception classes that can cross the calls the loaders
make.  UnicodeDecodeError is a subclass of ValueError and is subsumed by
valueError here. -/
inductive PyError
  | fileNotFound
  | emptyData
  | parserError
  | valueError
  | keyError
deriving DecidableEq, Repr

/-- The observable states of a CSV file handed to pd.read_csv. -/
inductive CsvFile
  | missing
  | empty
  | malformed
  | wellFormed (t : Table)
deriving DecidableEq, Repr

/-- pd.read_csv: raises FileNotFoundError on a missing file,
EmptyDataError on an empty file, ParserError on malformed rows, and
returns the parsed frame otherwise. -/
def read_csv : CsvFile → Except PyError Table
  | CsvFile.missing => Except.error PyError.fileNotFound
  | CsvFile.empty => Except.error PyError.emptyData
  | CsvFile.malformed => Except.error PyError.parserError
  | CsvFile.wellFormed t => Except.ok t

/-- A try block whose except clause catches the listed exception classes
and returns an empty frame (after showing a warning); anything not
listed propagates. -/
def tryLoad (body : Except PyError Table) (catches : PyError → Bool) :
    Except PyError Table :=
  match body with
  | Except.ok t => Except.ok t
  | Except.error e => if catches e then Except.ok emptyTable else Except.error e

/-- load_transactions and load_clients catch FileNotFoundError,
EmptyDataError, ParserError and ValueError. -/
def transactionsCatches : PyError → Bool
  | PyError.fileNotFound => true
  | PyError.emptyData => true
  | PyError.parserError => true
  | PyError.valueError => true
  | PyError.keyError => false

/-- load_recurring catches only FileNotFoundError, EmptyDataError and
ParserError (it performs no date conversion). -/
def recurringCatches : PyError → Bool
  | PyError.fileNotFound => true
  | PyError.emptyData => true
  | PyError.parserError => true
  | PyError.valueError => false
  | PyError.keyError => false

/-- load_transactions: read the CSV, then run the pd.to_datetime
conversion of the Date column (datesPass, which can raise ValueError on
an unparseable date or KeyError on a missing column), catching the four
listed classes. -/
def load_transactions (datesPass : Table → Except PyError Table)
    (f : CsvFile) : Except PyError Table :=
  tryLoad (read_csv f >>= datesPass) transactionsCatches

/-- load_clients: same shape as load_transactions with the date
conversion applied to Invoice_Sent and Due_Date. -/
def load_clients (datesPass : Table → Except PyError Table)
    (f : CsvFile) : Except PyError Table :=
  tryLoad (read_csv f >>= datesPass) transactionsCatches

/-- load_recurring: read the CSV with no further conversion. -/
def load_recurring (f : CsvFile) : Except PyError Table :=
  tryLoad (read_csv f) recurringCatches

/-! ## Data-entry append (show_data_entry, Transactions tab) -/

/-- Python str.strip(): drop leading and trailing whitespace. -/
def pyStrip (s : String) : String :=
  String.mk
    ((((s.data.dropWhile Char.isWhitespace).reverse).dropWhile Char.isWhitespace).reverse)

/-- The validation the transaction form applies before appending:
nonempty stripped category and description, strictly positive amount. -/
def validTransactionInput (category description : String) (amount : ℚ) : Bool :=
  !(pyStrip category == "") && !(pyStrip description == "") && decide (0 < amount)

/-- Appending a row: load the existing table, pd.concat the one-row
frame onto it, write the whole file back.  Reloading then yields exactly
this list (to_csv followed by read_csv restores well-formed rows). -/
def addTransaction (existing : List Transaction) (r : Transaction) :
    List Transaction :=
  existing ++ [r]

/-! ## Credential store (src/database.py) -/

/-- One row of the users table: username (UNIQUE) and password_hash. -/
structure CredRow where
  username : String
  passwordHash : String
deriving DecidableEq, Repr

/-- Persistent state the credential store touches: the users table and,
per username, the list of files in the user_data namespace (a file is
its list of lines). -/
structure AppState where
  users : List CredRow
  userFiles : List (String × List (String × List String))
deriving DecidableEq, Repr

/-- The three per-user data files provisioned by create_user. -/
def data_file_names : List String := ["transactions.csv", "clients.csv", "recurring.csv"]

/-- Path.touch on each data file name not already present: the file is
created with empty content (zero bytes, hence no lines at all). -/
def provisionFiles (dir : List (String × List String)) : List (String × List String) :=
  data_file_names.foldl
    (fun d f => if (d.lookup f).isSome then d else d ++ [(f, [])]) dir

/-- Update or insert the entry of key k in an association list. -/
def setEntry (k : String) (v : α) : List (String × α) → List (String × α)
  | [] => [(k, v)]
  | (k2, v2) :: rest => if k2 == k then (k, v) :: rest else (k2, v2) :: setEntry k v rest

/-- create_user: INSERT the new row; on a duplicate username the UNIQUE
constraint raises sqlite3.IntegrityError before anything changes, which
the except clause turns into False.  On success the user directory is
created (exist_ok) and the three data files are touched if absent.
hashFn stands for hash_password, the hex digest of a cryptographic hash
of the password; every property proved here holds for any such
function. -/
def create_user (hashFn : String → String) (st : AppState)
    (username password : String) : Bool × AppState :=
  if st.users.any (fun r => r.username == username) then
    (false, st)
  else
    let dir := (st.userFiles.lookup username).getD []
    (true,
      { users := st.users ++ [⟨username, hashFn password⟩]
        userFiles := setEntry username (provisionFiles dir) st.userFiles })

/-- verify_user: SELECT the password_hash of the row with the given
username; None means False, otherwise compare the stored hash with the
hash of the supplied password. -/
def verify_user (hashFn : String → String) (users : List CredRow)
    (username password : String) : Bool :=
  match users.find? (fun r => r.username == username) with
  | none => false
  | some row => row.passwordHash == hashFn password

/-- The stored hash the SELECT of verify_user fetches, if any. -/
def storedHash (users : List CredRow) (username : String) : Option String :=
  (users.find? (fun r => r.username == username)).map (fun r => r.passwordHash)

/-! ## get_user_data_path (src/database.py) and path arithmetic -/

/-- Split a character list at every slash. -/
def splitSegsAux : List Char → List Char → List (List Char)
  | [], acc => [acc.reverse]
  | c :: cs, acc =>
    if c = '/' then acc.reverse :: splitSegsAux cs [] else splitSegsAux cs (c :: acc)

/-- The path segments pathlib keeps: split at slashes, drop empty
segments and single dots (pathlib collapses both); double dots are kept. -/
def pathSegs (s : String) : List String :=
  ((splitSegsAux s.data []).map (fun l => String.mk l)).filter
    (fun seg => !(seg == "") && !(seg == "."))

/-- A path string is absolute when it starts with a slash. -/
def isAbsolute (s : String) : Bool :=
  match s.data with
  | [] => false
  | c :: _ => c == '/'

/-- PurePosixPath of a sequence of joined arguments: an absolute
argument discards everything before it, a relative one appends its
segments. -/
def joinedParts (args : List String) : Bool × List String :=
  args.foldl
    (fun acc a => if isAbsolute a then (true, pathSegs a) else (acc.1, acc.2 ++ pathSegs a))
    (false, [])

/-- Concatenate strings with a separator between consecutive elements. -/
def joinWith (sep : String) : List String → String
  | [] => ""
  | [a] => a
  | a :: b :: rest => a ++ sep ++ joinWith sep (b :: rest)

/-- str of a PurePosixPath built from the given root flag and segments. -/
def renderPath : Bool × List String → String
  | (abs, []) => if abs then "/" else "."
  | (abs, s :: ss) => (if abs then "/" else "") ++ joinWith "/" (s :: ss)

/-- get_user_data_path: str(Path("user_data") / username / filename),
with no validation or sanitization of either argument. -/
def get_user_data_path (username filename : String) : String :=
  renderPath (joinedParts ["user_data", username, filename])

/-- A username or filename that is a single clean path segment: nonempty,
not the dot, and free of slashes.  pathlib joins such an argument without
altering it. -/
def cleanSeg (s : String) : Prop :=
  s ≠ "" ∧ s ≠ "." ∧ '/' ∉ s.data

instance (s : String) : Decidable (cleanSeg s) := by
  unfold cleanSeg
  infer_instance

/-- One step of lexical dot-dot resolution: a double dot cancels the
preceding segment when one is available. -/
def normStep (acc : List String) (seg : String) : List String :=
  if seg == ".." then
    match acc.getLast? with
    | some l => if l == ".." then acc ++ [seg] else acc.dropLast
    | none => acc ++ [seg]
  else acc ++ [seg]

/-- Lexically resolve the double dots of a segment list. -/
def normalizeSegs (segs : List String) : List String := segs.foldl normStep []

/-- After resolving double dots, does the path still point below the
user_data directory?  false means the path lies outside every user
namespace the store owns. -/
def staysInUserData (p : String) : Bool :=
  match normalizeSegs (pathSegs p) with
  | s :: _ => s == "user_data"
  | [] => false

/-! ## Claim theorems -/

/-- C1, counterexample.  For the income rows of the spec example (5000
Client Work, 1200 Digital Store, current year 2024) the YTD income is
6200, but the owner pay the code computes is neither 78000.00 nor
ceil(365/14)*3000 = 81000, and the net cushion is not -75520.00: the
source divides 365 by 14 with no rounding, giving 547500/7 = 78214.28…
and a cushion of -530140/7 = -75734.28…. -/
theorem claim1_counterexample :
    ytdIncome
      [⟨⟨2024, 1, 15⟩, "Income", "Client Work", 5000, "Project Alpha"⟩,
       ⟨⟨2024, 1, 25⟩, "Income", "Digital Store", 1200, "E-book Sales"⟩] 2024 = 6200 ∧
    (allocations 6200).owner_pay_total ≠ 78000 ∧
    (allocations 6200).owner_pay_total ≠ ((⌈(365 : ℚ) / 14⌉ : ℤ) : ℚ) * 3000 ∧
    (allocations 6200).net_cushion ≠ -75520 := by
  have hceil : ⌈(365 : ℚ) / 14⌉ = 27 := by
    rw [Int.ceil_eq_iff]
    norm_num
  refine ⟨?_, ?_, ?_, ?_⟩
  · simp [ytdIncome]
    norm_num
  · norm_num [allocations, days_in_year, owner_pay_frequency, owner_pay_amount]
  · rw [hceil]
    norm_num [allocations, days_in_year, owner_pay_frequency, owner_pay_amount]
  · norm_num [allocations, tax_rate, reinvestment_rate, days_in_year,
      owner_pay_frequency, owner_pay_amount]

/-- C1, amended.  For every year-to-date income I the split is
taxes = I * 0.40, reinvestment = I * 0.20, owner_pay = (365/14) * 3000
(a fixed draw independent of I, with no ceiling applied), and
net_cushion = I - taxes - reinvestment - owner_pay.  For the example
income rows summing to a YTD income of 6200 this gives taxes 2480,
reinvestment 1240, owner_pay 547500/7 = 78214.28…, net_cushion
-530140/7 = -75734.28…, and the negative cushion is returned as a
value, not an error. -/
theorem claim1_allocation_split :
    (∀ I : ℚ,
      (allocations I).taxes_set_aside = I * (40 / 100) ∧
      (allocations I).reinvestment = I * (20 / 100) ∧
      (allocations I).owner_pay_total = 365 / 14 * 3000 ∧
      (allocations I).net_cushion = I - I * (40 / 100) - I * (20 / 100) - 365 / 14 * 3000) ∧
    ytdIncome
      [⟨⟨2024, 1, 15⟩, "Income", "Client Work", 5000, "Project Alpha"⟩,
       ⟨⟨2024, 1, 25⟩, "Income", "Digital Store", 1200, "E-book Sales"⟩] 2024 = 6200 ∧
    (allocations 6200).taxes_set_aside = 2480 ∧
    (allocations 6200).reinvestment = 1240 ∧
    (allocations 6200).owner_pay_total = 547500 / 7 ∧
    (allocations 6200).net_cushion = -530140 / 7 ∧
    (allocations 6200).net_cushion < 0 := by
  refine ⟨fun I => ⟨?_, ?_, ?_, ?_⟩, ?_, ?_, ?_, ?_, ?_, ?_⟩
  · norm_num [allocations, tax_rate]
  · norm_num [allocations, reinvestment_rate]
  · norm_num [allocations, days_in_year, owner_pay_frequency, owner_pay_amount]
  · norm_num [allocations, tax_rate, reinvestment_rate, days_in_year,
      owner_pay_frequency, owner_pay_amount]
  · simp [ytdIncome]
    norm_num
  · norm_num [allocations, tax_rate]
  · norm_num [allocations, reinvestment_rate]
  · norm_num [allocations, days_in_year, owner_pay_frequency, owner_pay_amount]
  · norm_num [allocations, tax_rate, reinvestment_rate, days_in_year,
      owner_pay_frequency, owner_pay_amount]
  · norm_num [allocations, tax_rate, reinvestment_rate, days_in_year,
      owner_pay_frequency, owner_pay_amount]

/-- C2, counterexample.  A loaded table holding a single expense row of
amount 0 has a zero expense total, yet its category percentage is the
non-number outcome of 0/0 (none), not 0: the percentage computation of
show_expense_categories has no zero-denominator guard. -/
theorem claim2_counterexample :
    totalExpenses [⟨⟨2024, 1, 1⟩, "Expense", "Software", 0, "x"⟩] = 0 ∧
    categoryPercentages [⟨⟨2024, 1, 1⟩, "Expense", "Software", 0, "x"⟩] =
      [("Software", none)] ∧
    ¬ (∀ p ∈ categoryPercentages [⟨⟨2024, 1, 1⟩, "Expense", "Software", 0, "x"⟩],
        p.2 = some 0) := by
  refine ⟨?_, ?_, ?_⟩
  · simp [totalExpenses, categorySummary, expenseCategories, expenseRows,
      categoryTotal, sortBy, insertSorted]
  · simp [categoryPercentages, categorySummary, expenseCategories, expenseRows,
      categoryTotal, totalExpenses, sortBy, insertSorted, npDiv]
  · intro h
    have := h ("Software", none) (by
      simp [categoryPercentages, categorySummary, expenseCategories, expenseRows,
        categoryTotal, totalExpenses, sortBy, insertSorted, npDiv])
    simp at this

/-- C2, amended.  The profit-margin computation is guarded: a month
whose income is zero (the np.where condition income strictly positive
fails) yields a margin of 0, not an error.  The category-percentage
computation is not guarded: when the expense total is zero every
category percentage is the non-number outcome of division by zero
(none), not 0 — though no exception is raised either. -/
theorem claim2_division_guards (rows : List Transaction) (y : Int) (m : Nat) :
    (monthlyIncome rows y m = 0 → profitMarginOfMonth rows y m = 0) ∧
    (totalExpenses rows = 0 → ∀ p ∈ categoryPercentages rows, p.2 = none) := by
  constructor
  · intro h
    simp [profitMarginOfMonth, profitMargin, h]
  · intro h p hp
    simp only [categoryPercentages, List.mem_map] at hp
    obtain ⟨q, _, rfl⟩ := hp
    simp [npDiv, h]

/-- Witness for C2: the guarded margin of an income-free month is 0, and
every percentage of the zero-total expense table is the non-number
outcome. -/
theorem claim2_division_guards_witness :
    profitMarginOfMonth [⟨⟨2024, 1, 1⟩, "Expense", "Software", 0, "x"⟩] 2024 1 = 0 ∧
    ∀ p ∈ categoryPercentages [⟨⟨2024, 1, 1⟩, "Expense", "Software", 0, "x"⟩],
      p.2 = none := by
  constructor
  · exact (claim2_division_guards _ 2024 1).1 (by
      simp [monthlyIncome, sumByTypeInMonth])
  · exact (claim2_division_guards _ 2024 1).2 (by
      simp [totalExpenses, categorySummary, expenseCategories, expenseRows,
        categoryTotal, sortBy, insertSorted])

/-- C3.  Importing a table that lacks at least one required column of
its destination kind rejects the whole upload: the destination table is
unchanged (nothing is written) and the error shown lists the required
column set, which contains every missing column by inclusion. -/
theorem claim3_import_missing_columns (required : List String) (dest upload : Table)
    (h : ∃ c ∈ required, c ∉ upload.cols) :
    destAfterImport required dest upload = dest ∧
    ∃ err, importCSV required dest upload = Except.error err ∧
      ∀ c ∈ required, c ∉ upload.cols → c ∈ err := by
  have hcond : ¬ ∀ c ∈ required, c ∈ upload.cols := by
    obtain ⟨c, hc, hmiss⟩ := h
    exact fun hall => hmiss (hall c hc)
  refine ⟨?_, required, ?_, fun c hc _ => hc⟩
  · simp [destAfterImport, importCSV, if_neg hcond]
  · simp [importCSV, if_neg hcond]

/-- Witness for C3: an upload with only a Date and a Type column is
rejected, the destination keeps its single row, and the missing columns
Category, Amount and Description all appear in the error. -/
theorem claim3_import_missing_columns_witness :
    destAfterImport requiredTransactionCols
      { cols := requiredTransactionCols,
        rows := [[some "2024-01-15", some "Income", some "Client Work", some "5000",
          some "Project Alpha"]] }
      { cols := ["Date", "Type"], rows := [[some "2024-02-01", some "Expense"]] } =
      { cols := requiredTransactionCols,
        rows := [[some "2024-01-15", some "Income", some "Client Work", some "5000",
          some "Project Alpha"]] } ∧
    ∃ err, importCSV requiredTransactionCols
      { cols := requiredTransactionCols,
        rows := [[some "2024-01-15", some "Income", some "Client Work", some "5000",
          some "Project Alpha"]] }
      { cols := ["Date", "Type"], rows := [[some "2024-02-01", some "Expense"]] } =
        Except.error err ∧
      ∀ c ∈ requiredTransactionCols,
        c ∉ (["Date", "Type"] : List String) → c ∈ err :=
  claim3_import_missing_columns requiredTransactionCols _ _
    ⟨"Category", by decide, by decide⟩

/-- C4, counterexample.  Importing an upload that has all five required
transaction columns plus an extra one succeeds, but the destination
table afterwards does not have exactly the fixed column set: pd.concat
keeps the extra column (the upload is not projected onto the required
columns). -/
theorem claim4_counterexample :
    (destAfterImport requiredTransactionCols
      { cols := requiredTransactionCols,
        rows := [[some "2024-01-15", some "Income", some "Client Work", some "5000",
          some "Project Alpha"]] }
      { cols := requiredTransactionCols ++ ["Extra"],
        rows := [[some "2024-02-01", some "Expense", some "Meals", some "45",
          some "Lunch", some "zzz"]] }).cols ≠ requiredTransactionCols ∧
    "Extra" ∈ (destAfterImport requiredTransactionCols
      { cols := requiredTransactionCols,
        rows := [[some "2024-01-15", some "Income", some "Client Work", some "5000",
          some "Project Alpha"]] }
      { cols := requiredTransactionCols ++ ["Extra"],
        rows := [[some "2024-02-01", some "Expense", some "Meals", some "45",
          some "Lunch", some "zzz"]] }).cols := by decide

/-- C4, amended.  When the upload holds every required column (extras
allowed) the import succeeds and writes the pandas concatenation: the
destination columns become the previous columns followed by the upload
columns not already present (extra columns are kept, not ignored), the
imported row count adds up, and each pre-existing row is padded with
missing values in the new columns. -/
theorem claim4_import_extra_columns (required : List String) (dest upload : Table)
    (h : ∀ c ∈ required, c ∈ upload.cols) :
    importCSV required dest upload = Except.ok (pdConcat dest upload) ∧
    (destAfterImport required dest upload).cols =
      dest.cols ++ upload.cols.filter (fun c => !(dest.cols.contains c)) ∧
    (destAfterImport required dest upload).rows.length =
      dest.rows.length + upload.rows.length := by
  refine ⟨by simp [importCSV, if_pos h], ?_, ?_⟩
  · simp [destAfterImport, importCSV, if_pos h, pdConcat]
  · simp [destAfterImport, importCSV, if_pos h, pdConcat]

/-- Witness for C4: the concrete import of the counterexample tables
succeeds with the stated column list and row count. -/
theorem claim4_import_extra_columns_witness :
    importCSV requiredTransactionCols
      { cols := requiredTransactionCols,
        rows := [[some "2024-01-15", some "Income", some "Client Work", some "5000",
          some "Project Alpha"]] }
      { cols := requiredTransactionCols ++ ["Extra"],
        rows := [[some "2024-02-01", some "Expense", some "Meals", some "45",
          some "Lunch", some "zzz"]] } =
      Except.ok (pdConcat
        { cols := requiredTransactionCols,
          rows := [[some "2024-01-15", some "Income", some "Client Work", some "5000",
            some "Project Alpha"]] }
        { cols := requiredTransactionCols ++ ["Extra"],
          rows := [[some "2024-02-01", some "Expense", some "Meals", some "45",
            some "Lunch", some "zzz"]] }) ∧
    (destAfterImport requiredTransactionCols
      { cols := requiredTransactionCols,
        rows := [[some "2024-01-15", some "Income", some "Client Work", some "5000",
          some "Project Alpha"]] }
      { cols := requiredTransactionCols ++ ["Extra"],
        rows := [[some "2024-02-01", some "Expense", some "Meals", some "45",
          some "Lunch", some "zzz"]] }).cols =
      requiredTransactionCols ++
        (requiredTransactionCols ++ ["Extra"]).filter
          (fun c => !(requiredTransactionCols.contains c)) ∧
    (destAfterImport requiredTransactionCols
      { cols := requiredTransactionCols,
        rows := [[some "2024-01-15", some "Income", some "Client Work", some "5000",
          some "Project Alpha"]] }
      { cols := requiredTransactionCols ++ ["Extra"],
        rows := [[some "2024-02-01", some "Expense", some "Meals", some "45",
          some "Lunch", some "zzz"]] }).rows.length = 1 + 1 :=
  claim4_import_extra_columns requiredTransactionCols _ _ (by decide)

/-- Looking up the key just set in an association list yields the value
just set. -/
theorem lookup_setEntry (k : String) (v : α) (l : List (String × α)) :
    (setEntry k v l).lookup k = some v := by
  induction l with
  | nil => simp [setEntry, List.lookup]
  | cons hd tl ih =>
    obtain ⟨k2, v2⟩ := hd
    by_cases h : k2 = k
    · subst h
      simp [setEntry, List.lookup]
    · have hb : (k2 == k) = false := beq_eq_false_iff_ne.mpr h
      have hb2 : (k == k2) = false := beq_eq_false_iff_ne.mpr (Ne.symm h)
      simp [setEntry, hb, List.lookup, hb2, ih]

/-- C5, counterexample.  Creating a fresh account provisions three data
files whose contents are completely empty (Path.touch creates zero-byte
files): the transactions file has no first row at all, so its first row
is not a header naming the required columns. -/
theorem claim5_counterexample :
    (create_user (fun s => s) ⟨[], []⟩ "alice" "pw").1 = true ∧
    (create_user (fun s => s) ⟨[], []⟩ "alice" "pw").2.userFiles =
      [("alice",
        [("transactions.csv", []), ("clients.csv", []), ("recurring.csv", [])])] ∧
    ¬ ∃ lines : List String,
      ([("transactions.csv", ([] : List String)), ("clients.csv", []),
        ("recurring.csv", [])].lookup "transactions.csv" = some lines ∧
       lines.head? = some (joinWith "," requiredTransactionCols)) := by
  refine ⟨rfl, rfl, ?_⟩
  rintro ⟨lines, hl, hh⟩
  simp [List.lookup] at hl
  subst hl
  simp at hh

/-- C5, amended.  create_user on a fresh username succeeds and
provisions the per-user namespace with exactly the three data files
transactions.csv, clients.csv and recurring.csv, each created empty:
zero bytes, no rows, hence no header row. -/
theorem claim5_provision_empty_files (hashFn : String → String) (st : AppState)
    (u p : String) (hfresh : ∀ r ∈ st.users, r.username ≠ u)
    (hnew : st.userFiles.lookup u = none) :
    (create_user hashFn st u p).1 = true ∧
    (create_user hashFn st u p).2.userFiles.lookup u =
      some [("transactions.csv", []), ("clients.csv", []), ("recurring.csv", [])] := by
  have hany : st.users.any (fun r => r.username == u) = false := by
    rw [List.any_eq_false]
    intro r hr
    simpa using hfresh r hr
  have hprov : provisionFiles [] =
      [("transactions.csv", []), ("clients.csv", []), ("recurring.csv", [])] := rfl
  constructor
  · simp [create_user, hany]
  · simp [create_user, hany, hnew, hprov, lookup_setEntry]

/-- Witness for C5: creating bob on the empty store succeeds and his
namespace holds the three empty files. -/
theorem claim5_provision_empty_files_witness :
    (create_user (fun s => s) ⟨[], []⟩ "bob" "pw").1 = true ∧
    (create_user (fun s => s) ⟨[], []⟩ "bob" "pw").2.userFiles.lookup "bob" =
      some [("transactions.csv", []), ("clients.csv", []), ("recurring.csv", [])] :=
  claim5_provision_empty_files (fun s => s) ⟨[], []⟩ "bob" "pw"
    (by simp) rfl

/-- C6.  Calling create_user twice with the same fresh username: the
first call returns True, the second returns False (the IntegrityError
from the UNIQUE column is caught, not propagated) and leaves the state
exactly as after the first call; the users table ends with exactly one
row for that username and exactly one row more than before. -/
theorem claim6_duplicate_create (hashFn : String → String) (st : AppState)
    (u p p2 : String) (hfresh : ∀ r ∈ st.users, r.username ≠ u) :
    (create_user hashFn st u p).1 = true ∧
    (create_user hashFn (create_user hashFn st u p).2 u p2).1 = false ∧
    (create_user hashFn (create_user hashFn st u p).2 u p2).2 =
      (create_user hashFn st u p).2 ∧
    ((create_user hashFn (create_user hashFn st u p).2 u p2).2.users.filter
      (fun r => r.username == u)).length = 1 ∧
    (create_user hashFn (create_user hashFn st u p).2 u p2).2.users.length =
      st.users.length + 1 := by
  have hany : st.users.any (fun r => r.username == u) = false := by
    rw [List.any_eq_false]
    intro r hr
    simpa using hfresh r hr
  have hfilter : st.users.filter (fun r => r.username == u) = [] := by
    rw [List.filter_eq_nil_iff]
    intro r hr
    simpa using hfresh r hr
  have h1 : create_user hashFn st u p =
      (true,
        { users := st.users ++ [⟨u, hashFn p⟩]
          userFiles :=
            setEntry u (provisionFiles ((st.userFiles.lookup u).getD []))
              st.userFiles }) := by
    simp [create_user, hany]
  rw [h1]
  have h2 : (st.users ++ [(⟨u, hashFn p⟩ : CredRow)]).any
      (fun r => r.username == u) = true := by
    simp
  refine ⟨rfl, ?_, ?_, ?_, ?_⟩
  · simp [create_user, h2]
  · simp [create_user, h2]
  · simp [create_user, h2, List.filter_append, hfilter]
  · simp [create_user, h2]

/-- Witness for C6: creating carol twice on the empty store. -/
theorem claim6_duplicate_create_witness :
    (create_user (fun s => s) ⟨[], []⟩ "carol" "a").1 = true ∧
    (create_user (fun s => s)
      (create_user (fun s => s) ⟨[], []⟩ "carol" "a").2 "carol" "b").1 = false ∧
    (create_user (fun s => s)
      (create_user (fun s => s) ⟨[], []⟩ "carol" "a").2 "carol" "b").2 =
      (create_user (fun s => s) ⟨[], []⟩ "carol" "a").2 ∧
    ((create_user (fun s => s)
      (create_user (fun s => s) ⟨[], []⟩ "carol" "a").2 "carol" "b").2.users.filter
      (fun r => r.username == "carol")).length = 1 ∧
    (create_user (fun s => s)
      (create_user (fun s => s) ⟨[], []⟩ "carol" "a").2 "carol" "b").2.users.length =
      ([] : List CredRow).length + 1 :=
  claim6_duplicate_create (fun s => s) ⟨[], []⟩ "carol" "a" "b" (by simp)

/-- C7.  verify_user returns a plain Boolean: False when no row of the
users table carries the username (no exception), and when the SELECT
finds the row, True exactly when the stored hash equals the hash of the
supplied password; equivalently, the result is the comparison of the
fetched stored hash with some of the supplied hash. -/
theorem claim7_verify (hashFn : String → String) (users : List CredRow)
    (u p : String) :
    (users.find? (fun r => r.username == u) = none →
      verify_user hashFn users u p = false) ∧
    (∀ row, users.find? (fun r => r.username == u) = some row →
      (verify_user hashFn users u p = true ↔ row.passwordHash = hashFn p)) ∧
    verify_user hashFn users u p = decide (storedHash users u = some (hashFn p)) := by
  refine ⟨?_, ?_, ?_⟩
  · intro h
    simp [verify_user, h]
  · intro row h
    simp [verify_user, h]
  · cases h : users.find? (fun r => r.username == u) with
    | none => simp [verify_user, storedHash, h]
    | some row =>
      simp only [verify_user, storedHash, h, Option.map_some]
      by_cases he : row.passwordHash = hashFn p <;> simp [he]

/-- Witness for C7: an unknown username yields False, and the known
username yields True exactly when the supplied password hashes to the
stored value. -/
theorem claim7_verify_witness :
    verify_user (fun s => s ++ "#") [⟨"alice", "pw#"⟩] "bob" "pw" = false ∧
    (verify_user (fun s => s ++ "#") [⟨"alice", "pw#"⟩] "alice" "pw" = true ↔
      "pw#" = "pw" ++ "#") :=
  ⟨(claim7_verify (fun s => s ++ "#") [⟨"alice", "pw#"⟩] "bob" "pw").1 (by decide),
   (claim7_verify (fun s => s ++ "#") [⟨"alice", "pw#"⟩] "alice" "pw").2.1
     ⟨"alice", "pw#"⟩ (by decide)⟩

/-- C8.  For each of the three loaders and each of the three recoverable
file conditions (missing file, empty file, malformed rows), the loader
returns the empty table instead of propagating the exception, whatever
the date-conversion step would do on parsed data.  The three conditions
raise FileNotFoundError, EmptyDataError and ParserError respectively,
all of which every loader catches. -/
theorem claim8_load_empty_on_errors :
    ∀ datesPass : Table → Except PyError Table,
      load_transactions datesPass CsvFile.missing = Except.ok emptyTable ∧
      load_transactions datesPass CsvFile.empty = Except.ok emptyTable ∧
      load_transactions datesPass CsvFile.malformed = Except.ok emptyTable ∧
      load_clients datesPass CsvFile.missing = Except.ok emptyTable ∧
      load_clients datesPass CsvFile.empty = Except.ok emptyTable ∧
      load_clients datesPass CsvFile.malformed = Except.ok emptyTable ∧
      load_recurring CsvFile.missing = Except.ok emptyTable ∧
      load_recurring CsvFile.empty = Except.ok emptyTable ∧
      load_recurring CsvFile.malformed = Except.ok emptyTable :=
  fun _ => ⟨rfl, rfl, rfl, rfl, rfl, rfl, rfl, rfl, rfl⟩

/-- C9.  Appending a valid row to an existing transactions table and
reloading the file yields a table with exactly one more row whose last
row is the appended input (the write is load, concatenate, rewrite the
whole file; reloading reads back what was written). -/
theorem claim9_append_reload (existing : List Transaction) (r : Transaction)
    (hvalid : validTransactionInput r.category r.description r.amount = true) :
    (addTransaction existing r).length = existing.length + 1 ∧
    (addTransaction existing r).getLast? = some r := by
  refine ⟨by simp [addTransaction], by simp [addTransaction]⟩

/-- Witness for C9: appending a concrete valid row to a one-row table. -/
theorem claim9_append_reload_witness :
    (addTransaction
      [⟨⟨2024, 1, 15⟩, "Income", "Client Work", 5000, "Project Alpha"⟩]
      ⟨⟨2024, 2, 1⟩, "Expense", "Meals", 45, "Business Lunch"⟩).length =
      ([⟨⟨2024, 1, 15⟩, "Income", "Client Work", 5000,
        "Project Alpha"⟩] : List Transaction).length + 1 ∧
    (addTransaction
      [⟨⟨2024, 1, 15⟩, "Income", "Client Work", 5000, "Project Alpha"⟩]
      ⟨⟨2024, 2, 1⟩, "Expense", "Meals", 45, "Business Lunch"⟩).getLast? =
      some ⟨⟨2024, 2, 1⟩, "Expense", "Meals", 45, "Business Lunch"⟩ :=
  claim9_append_reload _ _ (by decide)

/-- Splitting a character list free of slashes returns it whole. -/
theorem splitSegsAux_no_slash (l acc : List Char) (h : '/' ∉ l) :
    splitSegsAux l acc = [acc.reverse ++ l] := by
  induction l generalizing acc with
  | nil => simp [splitSegsAux]
  | cons c cs ih =>
    have hc : ¬ c = '/' := fun hh => h (hh ▸ List.mem_cons_self c cs)
    have hcs : '/' ∉ cs := fun hh => h (List.mem_cons_of_mem c hh)
    simp [splitSegsAux, hc, ih _ hcs]

/-- A clean segment passes through pathlib segmentation unchanged. -/
theorem pathSegs_clean (s : String) (h : cleanSeg s) : pathSegs s = [s] := by
  obtain ⟨h1, h2, h3⟩ := h
  have e1 : (s == "") = false := beq_eq_false_iff_ne.mpr h1
  have e2 : (s == ".") = false := beq_eq_false_iff_ne.mpr h2
  unfold pathSegs
  rw [splitSegsAux_no_slash s.data [] h3]
  simp [List.filter, e1, e2]

/-- A clean segment is not an absolute path. -/
theorem isAbsolute_clean (s : String) (h : cleanSeg s) : isAbsolute s = false := by
  obtain ⟨_, _, h3⟩ := h
  unfold isAbsolute
  cases hd : s.data with
  | nil => rfl
  | cons c cs =>
    have hm : c ∈ s.data := hd ▸ List.mem_cons_self c cs
    have hc : (c == '/') = false := beq_eq_false_iff_ne.mpr (fun hh => h3 (hh ▸ hm))
    simp [hc]

/-- Joining clean segments under user_data produces the naive
slash-separated concatenation. -/
theorem get_user_data_path_clean (u f : String) (hu : cleanSeg u) (hf : cleanSeg f) :
    get_user_data_path u f = "user_data/" ++ u ++ "/" ++ f := by
  have h0 : isAbsolute "user_data" = false := rfl
  have p0 : pathSegs "user_data" = ["user_data"] := pathSegs_clean _ (by decide)
  unfold get_user_data_path joinedParts
  simp only [List.foldl, h0, isAbsolute_clean u hu, isAbsolute_clean f hf,
    if_neg Bool.false_ne_true, p0, pathSegs_clean u hu, pathSegs_clean f hf]
  simp [renderPath, joinWith, String.append_assoc]

/-- C10.  get_user_data_path performs the bare pathlib join of
user_data, the username and the filename with no validation or
sanitization: a clean username and filename yield exactly
user_data/username/filename, and the username consisting of a double
dot yields user_data/../finance_app.db, which resolves outside the
user_data namespace entirely. -/
theorem claim10_user_data_path :
    (∀ u f : String, cleanSeg u → cleanSeg f →
      get_user_data_path u f = "user_data/" ++ u ++ "/" ++ f) ∧
    get_user_data_path ".." "finance_app.db" = "user_data/../finance_app.db" ∧
    staysInUserData (get_user_data_path ".." "finance_app.db") = false := by
  refine ⟨fun u f hu hf => get_user_data_path_clean u f hu hf, by decide, by decide⟩

/-- Witness for C10: a clean username and filename give the expected
join. -/
theorem claim10_user_data_path_witness :
    get_user_data_path "alice" "transactions.csv" =
      "user_data/" ++ "alice" ++ "/" ++ "transactions.csv" :=
  claim10_user_data_path.1 "alice" "transactions.csv" (by decide) (by decide)

end FinDash

